import Mathlib

/-!
Verification development for the ExpiryScanner repository.

The development shallowly embeds the product-identification fallback
pipeline of `src/services/aiAnalysis.ts` and the manual-entry capture flow
of the ManualEntryScreen component (`src/unnamed/part_000`).

Modelling conventions:
* JavaScript numbers that can only ever hold an integer day-count or `NaN`
  are modelled by `JsNum` (`NaN` arises from arithmetic on an invalid
  `Date`).  `Math.ceil` of an exact millisecond difference divided by a
  day is integer ceiling division.
* JavaScript string truthiness (`undefined`/`null`/`""` are falsy) is
  modelled on `Option String` by `jsStrTruthy`; `a || b` is `jsOrStr`.
* `new Date(s)` never throws in JavaScript; an unparsable string yields an
  Invalid Date whose `getTime()` is `NaN`.  Date parsing is therefore a
  total abstract function `String → Option Int` (the `none` case is the
  Invalid Date), and "now" is an abstract millisecond timestamp.
* `JSON.parse` is likewise abstracted as a total function
  `String → Option ErrPayload` (`none` models the thrown `SyntaxError`
  that the source catches).
* Remote invocation (`supabase.functions.invoke`) is a function parameter
  from the request body actually sent to the `{ data, error }` pair it
  resolves with, so theorems can quantify over every remote behaviour and
  express "the endpoint is never invoked" as independence from it.
-/

/-- A JavaScript number that is either an integer or `NaN`. -/
inductive JsNum where
  | nan : JsNum
  | int (n : Int) : JsNum
deriving DecidableEq

/-- JS `<` against an integer literal: `NaN < k` is false. -/
def jsLtInt : JsNum → Int → Bool
  | .nan, _ => false
  | .int n, m => n < m

/-- JS `===` against an integer literal: `NaN === k` is false. -/
def jsEqInt : JsNum → Int → Bool
  | .nan, _ => false
  | .int n, m => n = m

/-- JS number-to-string coercion as used in template literals. -/
def jsNumToString : JsNum → String
  | .nan => "NaN"
  | .int n => toString n

/-- Integer ceiling division `⌈a / b⌉` for `b > 0`, as `Math.ceil` of the
exact rational quotient of two integer millisecond counts. -/
def jsCeilDiv (a b : Int) : Int := -((-a).fdiv b)

/-- Does the character list start with the given pattern? -/
def listStartsWith : List Char → List Char → Bool
  | [], _ => true
  | _ :: _, [] => false
  | a :: as, b :: bs => a == b && listStartsWith as bs

/-- Does the character list contain the pattern as a contiguous run? -/
def listContainsSeq (pat : List Char) : List Char → Bool
  | [] => listStartsWith pat []
  | c :: rest => listStartsWith pat (c :: rest) || listContainsSeq pat rest

/-- JS `s.includes(pat)`. -/
def strIncludes (s pat : String) : Bool := listContainsSeq pat.toList s.toList

/-- JS `s.startsWith(pat)`. -/
def strStartsWith (s pat : String) : Bool := listStartsWith pat.toList s.toList

/-- JS `s.toLowerCase()` (ASCII range, which covers every pattern the
classifier matches). -/
def strToLower (s : String) : String := ⟨s.toList.map Char.toLower⟩

/-- Drop leading whitespace from a character list. -/
def dropLeadingWs : List Char → List Char
  | [] => []
  | c :: rest => if c.isWhitespace then dropLeadingWs rest else c :: rest

/-- JS `s.trim()`: strip leading and trailing whitespace. -/
def jsTrim (s : String) : String :=
  ⟨dropLeadingWs (dropLeadingWs s.toList.reverse).reverse⟩

/-- JS truthiness of an optional string: `undefined` and `""` are falsy. -/
def jsStrTruthy : Option String → Bool
  | none => false
  | some s => s ≠ ""

/-- JS `a || b` on optional strings (returns `a` when truthy, else `b`). -/
def jsOrStr (a b : Option String) : Option String :=
  if jsStrTruthy a then a else b

/-- JS `a || d` where `d` is a (string) literal default. -/
def jsOrStrD (a : Option String) (d : String) : String :=
  if jsStrTruthy a then a.getD "" else d

/-- JS `a || b` on optional numeric statuses (`0`/`undefined` falsy). -/
def jsOrNat (a b : Option Nat) : Option Nat :=
  match a with
  | some n => if n ≠ 0 then some n else b
  | none => b

/-- JS truthiness of an optional boolean (`b || false`). -/
def jsTruthyBool (x : Option Bool) : Bool := x.getD false

/-- Milliseconds per day, the source's `1000 * 60 * 60 * 24`. -/
def msPerDay : Int := 86400000

/-- The argument type of `calculateShelfLifeDays`
(`string | Date | undefined`); a `Date` object may be an Invalid Date. -/
inductive DateLike where
  | undef : DateLike
  | str (s : String) : DateLike
  | obj (d : Option Int) : DateLike

/-- JS falsiness of a `string | Date | undefined` value: `undefined` and the
empty string are falsy, every `Date` object (even Invalid Date) is truthy. -/
def jsFalsyDate : DateLike → Bool
  | .undef => true
  | .str s => s = ""
  | .obj _ => false

/-- Embedding of `calculateShelfLifeDays` (src/services/aiAnalysis.ts,
lines 373-392), parameterised by the platform date parser `pd` and the
current time `now` in milliseconds.  The source's `try`/`catch` (returning
7) is dead code: `new Date`, `getTime`, subtraction and `Math.ceil` never
throw in JavaScript, so it has no counterpart here; an unparsable string
produces an Invalid Date and the arithmetic yields `NaN`. -/
def calculateShelfLifeDays (pd : String → Option Int) (now : Int)
    (expiryDate : DateLike) : JsNum :=
  if jsFalsyDate expiryDate then .int 7
  else
    let t : Option Int :=
      match expiryDate with
      | .undef => none
      | .str s => pd s
      | .obj d => d
    match t with
    | none => .nan
    | some te => .int (jsCeilDiv (te - now) msPerDay)

/-- Coercion from the orchestrator's optional ISO string field to the
calculator's argument type. -/
def optStrToDateLike : Option String → DateLike
  | none => .undef
  | some s => .str s

/-- Embedding of the status-label ladder of the ManualEntryScreen
(`src/unnamed/part_000`, lines 53-61), on JS numbers (all comparisons with
`NaN` are false, so `NaN` falls into the final template-literal branch). -/
def statusLabel (daysLeft : JsNum) : String :=
  if jsLtInt daysLeft 0 then "EXPIRED"
  else if jsEqInt daysLeft 0 then "EXPIRES TODAY"
  else if jsEqInt daysLeft 1 then "Expires tomorrow"
  else "Expires in " ++ jsNumToString daysLeft ++ " days"

/-- The four text fields of the manual-entry form. -/
structure FormState where
  productName : String
  category : String
  barcode : String
  expiryDate : String
deriving DecidableEq

/-- The record handed to the inventory-store collaborator
(`addInventoryItem`). -/
structure InventoryRecord where
  barcode : String
  product_name : String
  category : String
  expiry_date : String
  ai_confidence : Rat
deriving DecidableEq

/-- Observable outcome of one `handleSubmit` run.  `invalidDate` is the
source's `catch` branch around the date arithmetic (lines 67-74); it is
unreachable (see `handleSubmit`) but kept so its absence is visible. -/
inductive SubmitOutcome where
  | missingInfo : SubmitOutcome
  | invalidDate : SubmitOutcome
  | saved (item : InventoryRecord) (form : FormState) : SubmitOutcome
  | saveFailed (item : InventoryRecord) (form : FormState) : SubmitOutcome
deriving DecidableEq

/-- Embedding of `handleSubmit` of the ManualEntryScreen
(`src/unnamed/part_000`, lines 34-160).  `initialBarcode` is the screen's
optional prop, `storeOk` is whether the `addInventoryItem` write resolves.
The source wraps the date arithmetic in `try`/`catch` and alerts
"Invalid Date" from the `catch`; that branch can never run, because
`new Date(string)` returns an Invalid Date (it does not throw) and
`getTime`/`Math.ceil` on `NaN` do not throw either, so an unparsable date
flows on with `daysLeft = NaN`.  The `saved` outcome carries the written
record and the cleared form; `saveFailed` carries the attempted record and
the untouched form. -/
def handleSubmit (pd : String → Option Int) (now : Int) (f : FormState)
    (initialBarcode : Option String) (storeOk : Bool) : SubmitOutcome :=
  if jsTrim f.productName = "" || jsTrim f.expiryDate = "" then .missingInfo
  else
    let daysLeft : JsNum :=
      match pd f.expiryDate with
      | none => .nan
      | some t => .int (jsCeilDiv (t - now) msPerDay)
    let _status := statusLabel daysLeft
    let savedName := jsTrim f.productName
    let savedCategory := if jsTrim f.category ≠ "" then jsTrim f.category else "General"
    let savedExpiryDate := f.expiryDate
    let item : InventoryRecord :=
      ⟨if jsTrim f.barcode ≠ "" then jsTrim f.barcode else "Manual Entry",
       savedName, savedCategory, savedExpiryDate, 1⟩
    if storeOk then .saved item ⟨"", "", jsOrStrD initialBarcode "", ""⟩
    else .saveFailed item f

/-- The `AIAnalysisError` class (src/services/aiAnalysis.ts, lines 27-36):
a user-facing message and a taxonomy code.  The opaque `originalError`
diagnostic payload is not modelled. -/
structure AIAnalysisError where
  message : String
  code : String
deriving DecidableEq

/-- The `ProductAnalysisResult` interface (src/services/aiAnalysis.ts,
lines 6-13).  `confidenceScore` and `manualEntryRequired` are optional in
the interface but set at both construction sites, so they are plain
fields here. -/
structure ProductAnalysisResult where
  name : String
  category : String
  shelfLifeDays : JsNum
  confidenceScore : Rat
  expiryDate : Option String
  manualEntryRequired : Bool
deriving DecidableEq

/-- The `AnalyzeProductOptions` interface (src/services/aiAnalysis.ts,
lines 18-22). -/
structure AnalyzeProductOptions where
  barcode : Option String
  imageUri : Option String
  code : Option String
deriving DecidableEq

/-- The ambient Supabase configuration: the
`EXPO_PUBLIC_SUPABASE_URL` / `EXPO_PUBLIC_SUPABASE_ANON_KEY` environment
strings, already defaulted to `""` as by the source's `|| ''`. -/
structure Config where
  supabaseUrl : String
  supabaseKey : String
deriving DecidableEq

/-- Line 82 of src/services/aiAnalysis.ts. -/
def urlIsPlaceholder (cfg : Config) : Bool :=
  strIncludes cfg.supabaseUrl "placeholder" ||
    strIncludes cfg.supabaseUrl "your-project" || cfg.supabaseUrl.length = 0

/-- Line 83 of src/services/aiAnalysis.ts. -/
def keyIsPlaceholder (cfg : Config) : Bool :=
  strIncludes cfg.supabaseKey "placeholder" ||
    strIncludes cfg.supabaseKey "your-anon" || cfg.supabaseKey.length = 0

/-- Line 84 of src/services/aiAnalysis.ts. -/
def keyIsPublishable (cfg : Config) : Bool :=
  strStartsWith cfg.supabaseKey "sb_publishable_"

/-- Line 85 of src/services/aiAnalysis.ts. -/
def keyIsJWT (cfg : Config) : Bool := strStartsWith cfg.supabaseKey "eyJ"

/-- Modelled from the spec: `isSupabaseConfigured` is imported from
`../lib/supabase`, which is not among the source files.  Per spec section
4.2 the configuration validator's first check classifies credentials as
absent or placeholder by pure string inspection of the url and key, so
the credentials count as configured exactly when neither string is empty
or placeholder-marked. -/
def isSupabaseConfigured (cfg : Config) : Bool :=
  !(urlIsPlaceholder cfg || keyIsPlaceholder cfg)

/-- The structured data `JSON.parse` can recover from an extracted error
body (the fields the source reads from `errorJson`). -/
structure ErrPayload where
  manualEntryRequired : Option Bool
  error : Option String
  productName : Option String
  category : Option String
  expiryDate : Option String
  confidenceScore : Option Rat
deriving DecidableEq

/-- A transport-side failure of `supabase.functions.invoke`: the status
fields and the four sources the body-extraction strategies read
(lines 130-176 of src/services/aiAnalysis.ts).  Each optional string is
the text a successful read of that source would produce; `none` covers
both an absent source and a read that rejects. -/
structure TransportError where
  contextStatus : Option Nat
  errStatus : Option Nat
  bodyBlob : Option String
  bodyUsed : Bool
  bodyInit : Option String
  message : Option String
  contextBody : Option String
deriving DecidableEq

/-- First JS-truthy (present and non-empty) candidate wins. -/
def firstTruthyStr : List (Option String) → Option String
  | [] => none
  | a :: rest => if jsStrTruthy a then a else firstTruthyStr rest

/-- The multi-strategy error-body extraction (lines 134-176): method 1
reads `_bodyBlob` unless `bodyUsed`; method 2 reads `_bodyInit` through a
`Response`; method 3 takes `error.message` unless it is the generic
non-2xx sentinel; method 4 reads `context.body`.  Each later method runs
only while `errorBody` is still falsy, so the first truthy text wins. -/
def extractErrorBody (e : TransportError) : Option String :=
  firstTruthyStr
    [if !e.bodyUsed then e.bodyBlob else none,
     e.bodyInit,
     match e.message with
     | some m =>
       if m ≠ "Edge Function returned a non-2xx status code" then some m else none
     | none => none,
     e.contextBody]

/-- `error.context?.status || error.status` (line 132). -/
def errStatusOf (e : TransportError) : Option Nat :=
  jsOrNat e.contextStatus e.errStatus

/-- The HTTP-status override and final-message fallback of the error
branch (lines 238-277 of src/services/aiAnalysis.ts).  `mc` is the
message/code pair produced by the body-based stage; the status checks
then overwrite both unconditionally (the 500 case only when no body was
extracted), and a still-generic message is replaced from `rawMessage`.
The thrown code is `errorCode || 'EDGE_FUNCTION_ERROR'` (line 275). -/
def finishClassify (errorStatus : Option Nat) (errorBody : Option String)
    (rawMessage : Option String) (mc : String × String) : AIAnalysisError :=
  let mc1 : String × String :=
    if errorStatus = some 401 then
      ("Authentication failed. Please restart the app.", "AUTH_FAILED")
    else if errorStatus = some 500 ∧ errorBody = none then
      ("Server error occurred. Please try again or enter details manually.",
       "SERVER_ERROR")
    else if errorStatus = some 400 then
      ("Invalid request. Please check your input and try again.",
       "INVALID_REQUEST")
    else if errorStatus = some 503 ∨ errorStatus = some 502 then
      ("Service temporarily unavailable. Please try again later.",
       "SERVICE_UNAVAILABLE")
    else mc
  let finalMsg : String :=
    if mc1.1 = "" ∨ mc1.1 = "Failed to analyze product" then
      if (match rawMessage with
          | some m => strIncludes m "non-2xx"
          | none => false) then
        "Unable to analyze product. Please enter details manually."
      else if jsStrTruthy rawMessage ∧ (rawMessage.getD "").length < 100 then
        rawMessage.getD ""
      else
        "Could not identify this product automatically. Please enter the details manually."
    else mc1.1
  ⟨finalMsg, if mc1.2 ≠ "" then mc1.2 else "EDGE_FUNCTION_ERROR"⟩

/-- The body-based stage of the error branch (lines 185-236): when the
extracted body parses as JSON and carries `manualEntryRequired === true`,
an `AnalysisResult` is synthesized and returned instead of throwing; when
it carries an `error` text, a lowercase-substring table picks the
message/code; a non-JSON body shorter than 200 characters becomes the
message.  Everything else flows into `finishClassify`. -/
def handleTransportError (pj : String → Option ErrPayload)
    (pd : String → Option Int) (now : Int) (e : TransportError) :
    Except AIAnalysisError ProductAnalysisResult :=
  let errorBody := extractErrorBody e
  let errorStatus := errStatusOf e
  match errorBody with
  | some b =>
    match pj b with
    | some j =>
      if j.manualEntryRequired = some true then
        .ok ⟨jsOrStrD j.productName "Unknown Product",
             jsOrStrD j.category "General",
             calculateShelfLifeDays pd now (optStrToDateLike j.expiryDate),
             (j.confidenceScore).getD 0, j.expiryDate, true⟩
      else
        let mc : String × String :=
          if jsStrTruthy j.error then
            let em := strToLower (j.error.getD "")
            if strIncludes em "openai api key" ||
                strIncludes em "api key is not configured" then
              ("AI service is not properly configured. Please contact support.",
               "AI_NOT_CONFIGURED")
            else if strIncludes em "invalid" || strIncludes em "expired" then
              ("AI service authentication failed. Please try again later.",
               "AI_AUTH_FAILED")
            else if strIncludes em "rate limit" || strIncludes em "quota" then
              ("AI service is temporarily busy. Please try again in a moment.",
               "AI_RATE_LIMIT")
            else if strIncludes em "temporarily unavailable" ||
                strIncludes em "service" then
              ("AI service is temporarily unavailable. Please try again later.",
               "AI_SERVICE_UNAVAILABLE")
            else if strIncludes em "failed to analyze" then
              ("Could not identify this product automatically. Please enter the details manually.",
               "AI_ANALYSIS_FAILED")
            else
              ("Unable to analyze product. Please enter details manually.",
               "AI_ERROR")
          else ("Failed to analyze product", "UNKNOWN_ERROR")
        .error (finishClassify errorStatus errorBody e.message mc)
    | none =>
      let mc : String × String :=
        if b.length < 200 then (b, "UNKNOWN_ERROR")
        else ("Failed to analyze product", "UNKNOWN_ERROR")
      .error (finishClassify errorStatus errorBody e.message mc)
  | none =>
    .error (finishClassify errorStatus errorBody e.message
      ("Failed to analyze product", "UNKNOWN_ERROR"))

/-- The body actually sent to the `analyze-product` Edge Function
(lines 123-128): `code: codeToAnalyze || ''` plus the image passthrough. -/
structure RequestBody where
  code : String
  imageUri : Option String
deriving DecidableEq

/-- The successful-response payload of the Edge Function (the fields the
source reads from `data`, lines 288-312). -/
structure RespData where
  error : Option String
  productName : Option String
  name : Option String
  category : Option String
  expiryDate : Option String
  confidenceScore : Option Rat
  manualEntryRequired : Option Bool
deriving DecidableEq

/-- The `{ data, error }` pair `supabase.functions.invoke` resolves with. -/
structure Invoked where
  error : Option TransportError
  data : Option RespData
deriving DecidableEq

/-- The message of the `MISSING_INPUT` rejection (lines 57-60). -/
def missingInputMsg : String :=
  "Either barcode/code or imageUri must be provided for analysis"

/-- The message of the `NOT_CONFIGURED` rejection (lines 73-76). -/
def notConfiguredMsg : String :=
  "Supabase is not configured. Please set EXPO_PUBLIC_SUPABASE_URL and EXPO_PUBLIC_SUPABASE_ANON_KEY environment variables."

/-- First line of the `PLACEHOLDER_CREDENTIALS` message (lines 89-96); the
multi-line remediation steps are abbreviated. -/
def placeholderMsg : String :=
  "Supabase credentials are not properly configured. The app is using placeholder credentials which will cause 401 errors."

/-- First line of the `WRONG_KEY_TYPE` message (lines 101-113); the
multi-line remediation steps are abbreviated. -/
def wrongKeyTypeMsg : String := "WRONG KEY TYPE DETECTED!"

/-- The message of the `NO_RESPONSE` rejection (lines 281-284). -/
def noResponseMsg : String := "No data returned from AI analysis"

/-- `options.barcode || options.code` (line 54). -/
def codeToAnalyze (o : AnalyzeProductOptions) : Option String :=
  jsOrStr o.barcode o.code

/-- Negation of the `MISSING_INPUT` guard
(`!codeToAnalyze && !options.imageUri`, line 56). -/
def inputPresent (o : AnalyzeProductOptions) : Bool :=
  jsStrTruthy (codeToAnalyze o) || jsStrTruthy o.imageUri

/-- The request body passed to `supabase.functions.invoke`
(lines 123-128). -/
def sentBody (o : AnalyzeProductOptions) : RequestBody :=
  ⟨jsOrStrD (codeToAnalyze o) "", o.imageUri⟩

/-- Interpretation of the invoke result (lines 130-324): a truthy `error`
goes to the transport-error branch, missing `data` is `NO_RESPONSE`, a
payload `error` field is `AI_SERVICE_ERROR`, and otherwise the payload is
mapped into a `ProductAnalysisResult` (the `data.manualEntryRequired`
early return at lines 312-315 returns the same `result` value as the
fall-through, so both paths are a single construction here). -/
def interpretInvoked (pj : String → Option ErrPayload)
    (pd : String → Option Int) (now : Int) (inv : Invoked) :
    Except AIAnalysisError ProductAnalysisResult :=
  match inv.error with
  | some te => handleTransportError pj pd now te
  | none =>
    match inv.data with
    | none => .error ⟨noResponseMsg, "NO_RESPONSE"⟩
    | some d =>
      if jsStrTruthy d.error then
        .error ⟨jsOrStrD d.error "Error from AI service", "AI_SERVICE_ERROR"⟩
      else
        .ok ⟨jsOrStrD (jsOrStr d.productName d.name) "Unknown Product",
             jsOrStrD d.category "General",
             calculateShelfLifeDays pd now (optStrToDateLike d.expiryDate),
             (d.confidenceScore).getD 0, d.expiryDate,
             jsTruthyBool d.manualEntryRequired⟩

/-- Embedding of `analyzeProduct` (src/services/aiAnalysis.ts,
lines 50-339), parameterised by the JSON parser `pj`, the date parser
`pd`, the current time `now`, the ambient configuration, and the remote
collaborator `invoke`.  A thrown `AIAnalysisError` is the `.error` case.
The outer `catch` that wraps non-`AIAnalysisError` exceptions as
`UNKNOWN_ERROR` (lines 325-338) has no counterpart because nothing else
in the modelled body throws. -/
def analyzeProduct (pj : String → Option ErrPayload)
    (pd : String → Option Int) (now : Int) (cfg : Config)
    (o : AnalyzeProductOptions) (invoke : RequestBody → Invoked) :
    Except AIAnalysisError ProductAnalysisResult :=
  if !inputPresent o then .error ⟨missingInputMsg, "MISSING_INPUT"⟩
  else if !isSupabaseConfigured cfg then
    .error ⟨notConfiguredMsg, "NOT_CONFIGURED"⟩
  else if urlIsPlaceholder cfg || keyIsPlaceholder cfg then
    .error ⟨placeholderMsg, "PLACEHOLDER_CREDENTIALS"⟩
  else if keyIsPublishable cfg && !keyIsJWT cfg then
    .error ⟨wrongKeyTypeMsg, "WRONG_KEY_TYPE"⟩
  else interpretInvoked pj pd now (invoke (sentBody o))

/-- The taxonomy code of a thrown (classified) error, `none` on the
success path. -/
def thrownCode (r : Except AIAnalysisError ProductAnalysisResult) :
    Option String :=
  match r with
  | .error e => some e.code
  | .ok _ => none

/-- The closed error-code vocabulary of spec section 6. -/
def errorCodeVocab : List String :=
  ["NOT_CONFIGURED", "PLACEHOLDER_CREDENTIALS", "WRONG_KEY_TYPE",
   "MISSING_INPUT", "AI_NOT_CONFIGURED", "AI_AUTH_FAILED", "AI_RATE_LIMIT",
   "AI_SERVICE_UNAVAILABLE", "AI_ANALYSIS_FAILED", "AI_ERROR",
   "AI_SERVICE_ERROR", "AUTH_FAILED", "SERVER_ERROR", "INVALID_REQUEST",
   "SERVICE_UNAVAILABLE", "NO_RESPONSE", "UNKNOWN_ERROR"]

/-- A date parser on which no string parses (every input is an Invalid
Date); used to instantiate theorems at unparsable concrete dates. -/
def pdNone : String → Option Int := fun _ => none

/-- A JSON parser on which no string parses. -/
def pjNone : String → Option ErrPayload := fun _ => none

/-- A well-formed configuration: JWT-shaped key, no placeholder marker. -/
def cCfg : Config := ⟨"https://example.supabase.co", "eyJtestkey"⟩

/-- A configuration with a publishable-shaped key. -/
def cCfgPub : Config := ⟨"https://example.supabase.co", "sb_publishable_abc"⟩

/-- A request carrying only a barcode. -/
def cOpts : AnalyzeProductOptions := ⟨some "123456", none, none⟩

/-- A request carrying no barcode, no code and no image. -/
def cOptsNone : AnalyzeProductOptions := ⟨none, none, none⟩

/-- A request carrying both a barcode and a generic code. -/
def cOptsBoth : AnalyzeProductOptions := ⟨some "111", none, some "222"⟩

/-- A concrete error body: the JSON text
`{"error":"Rate limit exceeded"}`. -/
def cBody : String := "\x7b\"error\":\"Rate limit exceeded\"\x7d"

/-- What `JSON.parse` recovers from `cBody`. -/
def cPayload : ErrPayload := ⟨none, some "Rate limit exceeded", none, none, none, none⟩

/-- A JSON parser that parses exactly `cBody`. -/
def cParse : String → Option ErrPayload :=
  fun s => if s = cBody then some cPayload else none

/-- A transport failure with HTTP status 401 and body `cBody`. -/
def cTe401 : TransportError := ⟨some 401, none, some cBody, false, none, none, none⟩

/-- A transport failure with HTTP status 500 and body `cBody`. -/
def cTe500 : TransportError := ⟨some 500, none, some cBody, false, none, none, none⟩

/-- A remote collaborator that always fails with `cTe401`. -/
def cInvoke401 : RequestBody → Invoked := fun _ => ⟨some cTe401, none⟩

/-- A remote collaborator that always fails with `cTe500`. -/
def cInvoke500 : RequestBody → Invoked := fun _ => ⟨some cTe500, none⟩

/-- A concrete error body: the JSON text `{"manualEntryRequired":true}`. -/
def cManualBody : String := "\x7b\"manualEntryRequired\":true\x7d"

/-- What `JSON.parse` recovers from `cManualBody`. -/
def cManualPayload : ErrPayload := ⟨some true, none, none, none, none, none⟩

/-- A JSON parser that parses exactly `cManualBody`. -/
def cParseManual : String → Option ErrPayload :=
  fun s => if s = cManualBody then some cManualPayload else none

/-- A transport failure with HTTP status 500 and body `cManualBody`. -/
def cTeManual : TransportError :=
  ⟨some 500, none, some cManualBody, false, none, none, none⟩

/-- A remote collaborator that always fails with `cTeManual`. -/
def cInvokeManual : RequestBody → Invoked := fun _ => ⟨some cTeManual, none⟩

/-- A successful response payload that only sets `manualEntryRequired`. -/
def cData : RespData := ⟨none, none, none, none, none, none, some true⟩

/-- A remote collaborator that always succeeds with `cData`. -/
def cInvokeData : RequestBody → Invoked := fun _ => ⟨none, some cData⟩

/-- When the input and configuration checks all pass, `analyzeProduct`
invokes the remote endpoint with `sentBody` and interprets its answer. -/
theorem analyzeProduct_invokes (pj : String → Option ErrPayload)
    (pd : String → Option Int) (now : Int) (cfg : Config)
    (o : AnalyzeProductOptions) (invoke : RequestBody → Invoked)
    (hin : inputPresent o = true)
    (hurl : urlIsPlaceholder cfg = false)
    (hk : keyIsPlaceholder cfg = false)
    (hkey : (keyIsPublishable cfg && !keyIsJWT cfg) = false) :
    analyzeProduct pj pd now cfg o invoke =
      interpretInvoked pj pd now (invoke (sentBody o)) := by
  simp [analyzeProduct, isSupabaseConfigured, hin, hurl, hk, hkey]

/-- C1: a successful remote invocation whose payload has no error field
and sets `manualEntryRequired` makes `analyzeProduct` return (not throw)
a result with the flag set, the name defaulted to "Unknown Product", the
category defaulted to "General", and the shelf life derived from the
payload's expiry date. -/
theorem analyzeProduct_success_manual_entry (pj : String → Option ErrPayload)
    (pd : String → Option Int) (now : Int) (cfg : Config)
    (o : AnalyzeProductOptions) (invoke : RequestBody → Invoked) (d : RespData)
    (hin : inputPresent o = true)
    (hurl : urlIsPlaceholder cfg = false)
    (hk : keyIsPlaceholder cfg = false)
    (hkey : (keyIsPublishable cfg && !keyIsJWT cfg) = false)
    (hinv : invoke (sentBody o) = ⟨none, some d⟩)
    (herr : d.error = none)
    (hman : d.manualEntryRequired = some true) :
    analyzeProduct pj pd now cfg o invoke =
      .ok ⟨jsOrStrD (jsOrStr d.productName d.name) "Unknown Product",
           jsOrStrD d.category "General",
           calculateShelfLifeDays pd now (optStrToDateLike d.expiryDate),
           (d.confidenceScore).getD 0, d.expiryDate, true⟩ := by
  rw [analyzeProduct_invokes pj pd now cfg o invoke hin hurl hk hkey, hinv]
  simp [interpretInvoked, herr, jsStrTruthy, jsTruthyBool, hman]

/-- Witness for C1 at a concrete success payload. -/
theorem analyzeProduct_success_manual_entry_witness :
    analyzeProduct pjNone pdNone 0 cCfg cOpts cInvokeData =
      .ok ⟨"Unknown Product", "General", .int 7, 0, none, true⟩ :=
  analyzeProduct_success_manual_entry pjNone pdNone 0 cCfg cOpts cInvokeData
    cData (by decide) (by decide) (by decide) (by decide) rfl rfl rfl

/-- C3: a request with no barcode, no code and no image is rejected with
`MISSING_INPUT`, for every remote collaborator (so the endpoint is never
invoked). -/
theorem analyzeProduct_missing_input (pj : String → Option ErrPayload)
    (pd : String → Option Int) (now : Int) (cfg : Config)
    (o : AnalyzeProductOptions) (invoke : RequestBody → Invoked)
    (hb : jsStrTruthy o.barcode = false)
    (hc : jsStrTruthy o.code = false)
    (hi : jsStrTruthy o.imageUri = false) :
    analyzeProduct pj pd now cfg o invoke =
      .error ⟨missingInputMsg, "MISSING_INPUT"⟩ := by
  simp [analyzeProduct, inputPresent, codeToAnalyze, jsOrStr, hb, hc, hi]

/-- Witness for C3 at the empty request. -/
theorem analyzeProduct_missing_input_witness :
    analyzeProduct pjNone pdNone 0 cCfg cOptsNone cInvoke401 =
      .error ⟨missingInputMsg, "MISSING_INPUT"⟩ :=
  analyzeProduct_missing_input pjNone pdNone 0 cCfg cOptsNone cInvoke401
    (by decide) (by decide) (by decide)

/-- C4: a non-placeholder configuration whose key is publishable-shaped
and not JWT-shaped is rejected with `WRONG_KEY_TYPE`, for every remote
collaborator (so the endpoint is never invoked). -/
theorem analyzeProduct_wrong_key_type (pj : String → Option ErrPayload)
    (pd : String → Option Int) (now : Int) (cfg : Config)
    (o : AnalyzeProductOptions) (invoke : RequestBody → Invoked)
    (hin : inputPresent o = true)
    (hurl : urlIsPlaceholder cfg = false)
    (hk : keyIsPlaceholder cfg = false)
    (hpub : keyIsPublishable cfg = true)
    (hjwt : keyIsJWT cfg = false) :
    analyzeProduct pj pd now cfg o invoke =
      .error ⟨wrongKeyTypeMsg, "WRONG_KEY_TYPE"⟩ := by
  simp [analyzeProduct, isSupabaseConfigured, hin, hurl, hk, hpub, hjwt]

/-- Witness for C4 at a concrete publishable-key configuration. -/
theorem analyzeProduct_wrong_key_type_witness :
    analyzeProduct pjNone pdNone 0 cCfgPub cOpts cInvoke401 =
      .error ⟨wrongKeyTypeMsg, "WRONG_KEY_TYPE"⟩ :=
  analyzeProduct_wrong_key_type pjNone pdNone 0 cCfgPub cOpts cInvoke401
    (by decide) (by decide) (by decide) (by decide) (by decide)

/-- C5: a transport-side failure whose extracted body parses with
`manualEntryRequired` true makes `analyzeProduct` return (not throw) a
synthesized result with the flag set and the body's fields defaulted to
"Unknown Product" / "General" / 0 when not (truthily) present. -/
theorem analyzeProduct_error_body_manual_entry (pj : String → Option ErrPayload)
    (pd : String → Option Int) (now : Int) (cfg : Config)
    (o : AnalyzeProductOptions) (invoke : RequestBody → Invoked)
    (te : TransportError) (dta : Option RespData) (b : String) (j : ErrPayload)
    (hin : inputPresent o = true)
    (hurl : urlIsPlaceholder cfg = false)
    (hk : keyIsPlaceholder cfg = false)
    (hkey : (keyIsPublishable cfg && !keyIsJWT cfg) = false)
    (hinv : invoke (sentBody o) = ⟨some te, dta⟩)
    (hb : extractErrorBody te = some b)
    (hj : pj b = some j)
    (hman : j.manualEntryRequired = some true) :
    analyzeProduct pj pd now cfg o invoke =
      .ok ⟨jsOrStrD j.productName "Unknown Product",
           jsOrStrD j.category "General",
           calculateShelfLifeDays pd now (optStrToDateLike j.expiryDate),
           (j.confidenceScore).getD 0, j.expiryDate, true⟩ := by
  rw [analyzeProduct_invokes pj pd now cfg o invoke hin hurl hk hkey, hinv]
  simp [interpretInvoked, handleTransportError, hb, hj, hman]

/-- Witness for C5 at a concrete 500-status failure whose body carries the
flag. -/
theorem analyzeProduct_error_body_manual_entry_witness :
    analyzeProduct cParseManual pdNone 0 cCfg cOpts cInvokeManual =
      .ok ⟨"Unknown Product", "General", .int 7, 0, none, true⟩ :=
  analyzeProduct_error_body_manual_entry cParseManual pdNone 0 cCfg cOpts
    cInvokeManual cTeManual none cManualBody cManualPayload
    (by decide) (by decide) (by decide) (by decide) rfl (by decide) (by decide)
    (by decide)

/-- C6 (failing input): a manual-entry submission whose expiry date does
not parse as a calendar date is not aborted; the record is still written
to the inventory store (the source's Invalid Date `catch` is dead code,
since JavaScript date construction does not throw), and on success the
form is cleared. -/
theorem handleSubmit_unparsable_date_still_writes :
    handleSubmit pdNone 0 ⟨"Milk", "", "", "2O24-13-45"⟩ none true =
        .saved ⟨"Manual Entry", "Milk", "General", "2O24-13-45", 1⟩
          ⟨"", "", "", ""⟩ ∧
      handleSubmit pdNone 0 ⟨"Milk", "", "", "2O24-13-45"⟩ none true ≠
        .invalidDate := by
  exact ⟨by decide, by decide⟩

/-- C7: the status label of an integer day-count follows the exact
tie-breaks of the spec: negative is "EXPIRED", zero is "EXPIRES TODAY",
one is "Expires tomorrow", more is "Expires in N days". -/
theorem statusLabel_policy (d : Int) :
    statusLabel (.int d) =
      if d < 0 then "EXPIRED"
      else if d = 0 then "EXPIRES TODAY"
      else if d = 1 then "Expires tomorrow"
      else "Expires in " ++ toString d ++ " days" := by
  simp [statusLabel, jsLtInt, jsEqInt, jsNumToString]

/-- C9: when both a non-empty barcode and a non-empty code are supplied,
the request body sent to the remote endpoint carries the barcode, and
`analyzeProduct` (past its input and configuration checks) hands exactly
that body to the collaborator. -/
theorem analyzeProduct_prefers_barcode (pj : String → Option ErrPayload)
    (pd : String → Option Int) (now : Int) (cfg : Config)
    (o : AnalyzeProductOptions) (invoke : RequestBody → Invoked)
    (b c : String)
    (hb : o.barcode = some b) (hbne : b ≠ "")
    (hc : o.code = some c) (hcne : c ≠ "")
    (hurl : urlIsPlaceholder cfg = false)
    (hk : keyIsPlaceholder cfg = false)
    (hkey : (keyIsPublishable cfg && !keyIsJWT cfg) = false) :
    (sentBody o).code = b ∧
      analyzeProduct pj pd now cfg o invoke =
        interpretInvoked pj pd now (invoke ⟨b, o.imageUri⟩) := by
  have hsb : sentBody o = ⟨b, o.imageUri⟩ := by
    simp [sentBody, codeToAnalyze, jsOrStr, jsOrStrD, jsStrTruthy, hb, hbne]
  have hin : inputPresent o = true := by
    simp [inputPresent, codeToAnalyze, jsOrStr, jsStrTruthy, hb, hbne]
  refine ⟨by rw [hsb], ?_⟩
  rw [analyzeProduct_invokes pj pd now cfg o invoke hin hurl hk hkey, hsb]

/-- Witness for C9 at a request carrying both identifiers. -/
theorem analyzeProduct_prefers_barcode_witness :
    (sentBody cOptsBoth).code = "111" ∧
      analyzeProduct pjNone pdNone 0 cCfg cOptsBoth cInvoke401 =
        interpretInvoked pjNone pdNone 0 (cInvoke401 ⟨"111", none⟩) :=
  analyzeProduct_prefers_barcode pjNone pdNone 0 cCfg cOptsBoth cInvoke401
    "111" "222" rfl (by decide) rfl (by decide) (by decide) (by decide)
    (by decide)

/-- C10: the shelf-life calculator is total: every input (absent, `Date`
object, or arbitrary string, parsable or not) yields a JavaScript number
(an integer or `NaN`) — nothing throws — and an absent input yields
exactly 7. -/
theorem calculateShelfLifeDays_total (pd : String → Option Int) (now : Int) :
    calculateShelfLifeDays pd now .undef = .int 7 ∧
      ∀ e : DateLike, calculateShelfLifeDays pd now e = .nan ∨
        ∃ n : Int, calculateShelfLifeDays pd now e = .int n := by
  refine ⟨rfl, fun e => ?_⟩
  cases e with
  | undef => exact Or.inr ⟨7, rfl⟩
  | str s =>
    by_cases h : s = ""
    · exact Or.inr ⟨7, by simp [calculateShelfLifeDays, jsFalsyDate, h]⟩
    · cases hp : pd s with
      | none =>
        exact Or.inl (by simp [calculateShelfLifeDays, jsFalsyDate, h, hp])
      | some t =>
        exact Or.inr ⟨jsCeilDiv (t - now) msPerDay,
          by simp [calculateShelfLifeDays, jsFalsyDate, h, hp]⟩
  | obj d =>
    cases d with
    | none => exact Or.inl (by simp [calculateShelfLifeDays, jsFalsyDate])
    | some t =>
      exact Or.inr ⟨jsCeilDiv (t - now) msPerDay,
        by simp [calculateShelfLifeDays, jsFalsyDate]⟩

/-- The taxonomy code `finishClassify` emits: the status overrides first,
then the body-stage code, then the (unreachable for non-empty codes)
`EDGE_FUNCTION_ERROR` fallback. -/
theorem finishClassify_code (st : Option Nat) (bd rm : Option String)
    (mc : String × String) :
    (finishClassify st bd rm mc).code =
      if st = some 401 then "AUTH_FAILED"
      else if st = some 500 ∧ bd = none then "SERVER_ERROR"
      else if st = some 400 then "INVALID_REQUEST"
      else if st = some 503 ∨ st = some 502 then "SERVICE_UNAVAILABLE"
      else if mc.2 ≠ "" then mc.2 else "EDGE_FUNCTION_ERROR" := by
  unfold finishClassify
  dsimp only
  split_ifs <;> simp_all

/-- C2 (amended): a transport failure whose parsed body's error text
contains "rate limit" (and none of the higher-priority substrings of the
classification table) is classified `AI_RATE_LIMIT` provided the
effective HTTP status is none of 401, 400, 502, 503 — for those statuses
the later status mapping overrides the body-based code. -/
theorem analyzeProduct_rate_limit_code (pj : String → Option ErrPayload)
    (pd : String → Option Int) (now : Int) (cfg : Config)
    (o : AnalyzeProductOptions) (invoke : RequestBody → Invoked)
    (te : TransportError) (dta : Option RespData) (b : String) (j : ErrPayload)
    (hin : inputPresent o = true)
    (hurl : urlIsPlaceholder cfg = false)
    (hk : keyIsPlaceholder cfg = false)
    (hkey : (keyIsPublishable cfg && !keyIsJWT cfg) = false)
    (hinv : invoke (sentBody o) = ⟨some te, dta⟩)
    (hb : extractErrorBody te = some b)
    (hj : pj b = some j)
    (hman : j.manualEntryRequired ≠ some true)
    (herr : jsStrTruthy j.error = true)
    (hrl : strIncludes (strToLower (j.error.getD "")) "rate limit" = true)
    (h1 : strIncludes (strToLower (j.error.getD "")) "openai api key" = false)
    (h2 : strIncludes (strToLower (j.error.getD "")) "api key is not configured"
      = false)
    (h3 : strIncludes (strToLower (j.error.getD "")) "invalid" = false)
    (h4 : strIncludes (strToLower (j.error.getD "")) "expired" = false)
    (hs1 : errStatusOf te ≠ some 401)
    (hs2 : errStatusOf te ≠ some 400)
    (hs3 : errStatusOf te ≠ some 502)
    (hs4 : errStatusOf te ≠ some 503) :
    thrownCode (analyzeProduct pj pd now cfg o invoke) =
      some "AI_RATE_LIMIT" := by
  rw [analyzeProduct_invokes pj pd now cfg o invoke hin hurl hk hkey, hinv]
  simp only [interpretInvoked, handleTransportError, hb, hj, if_neg hman, herr,
    if_true, h1, h2, h3, h4, hrl, Bool.false_or, Bool.or_false, Bool.or_true,
    if_false, thrownCode]
  rw [finishClassify_code]
  simp [hs1, hs2, hs3, hs4]

/-- Witness for C2's amended theorem at a concrete 500-status failure
carrying a rate-limit body. -/
theorem analyzeProduct_rate_limit_code_witness :
    thrownCode (analyzeProduct cParse pdNone 0 cCfg cOpts cInvoke500) =
      some "AI_RATE_LIMIT" :=
  analyzeProduct_rate_limit_code cParse pdNone 0 cCfg cOpts cInvoke500
    cTe500 none cBody cPayload (by decide) (by decide) (by decide) (by decide)
    rfl (by decide) (by decide) (by decide) (by decide) (by decide) (by decide)
    (by decide) (by decide) (by decide) (by decide) (by decide) (by decide)
    (by decide)

/-- Counterexample to C2 as stated: with HTTP status 401 and a body whose
error text contains "rate limit", the body-based `AI_RATE_LIMIT` is
overwritten by the status mapping, and the thrown code is `AUTH_FAILED`. -/
theorem analyzeProduct_rate_limit_counterexample :
    strIncludes (strToLower (cPayload.error.getD "")) "rate limit" = true ∧
      thrownCode (analyzeProduct cParse pdNone 0 cCfg cOpts cInvoke401) =
        some "AUTH_FAILED" ∧
      thrownCode (analyzeProduct cParse pdNone 0 cCfg cOpts cInvoke401) ≠
        some "AI_RATE_LIMIT" :=
  ⟨by decide, by decide, by decide⟩

/-- The status-override stage maps any body-stage pair whose code is in
the vocabulary (hence non-empty) to a code still in the vocabulary. -/
theorem finishClassify_code_mem (st : Option Nat) (bd rm : Option String)
    (mc : String × String) (h1 : mc.2 ∈ errorCodeVocab) :
    (finishClassify st bd rm mc).code ∈ errorCodeVocab := by
  have hne : mc.2 ≠ "" := by
    intro h
    rw [h] at h1
    simp [errorCodeVocab] at h1
  rw [finishClassify_code]
  split_ifs <;> simp_all [errorCodeVocab]

/-- Every error thrown from the transport-failure branch carries a code
from the closed vocabulary. -/
theorem handleTransportError_code_mem (pj : String → Option ErrPayload)
    (pd : String → Option Int) (now : Int) (te : TransportError)
    (e : AIAnalysisError)
    (h : handleTransportError pj pd now te = .error e) :
    e.code ∈ errorCodeVocab := by
  cases hb : extractErrorBody te with
  | none =>
    simp only [handleTransportError, hb] at h
    obtain rfl : finishClassify (errStatusOf te) none te.message
        ("Failed to analyze product", "UNKNOWN_ERROR") = e := by
      simpa using h
    exact finishClassify_code_mem _ _ _ _ (by decide)
  | some b =>
    cases hj : pj b with
    | none =>
      simp only [handleTransportError, hb, hj] at h
      set mc : String × String :=
        if b.length < 200 then (b, "UNKNOWN_ERROR")
        else ("Failed to analyze product", "UNKNOWN_ERROR") with hmc
      obtain rfl : finishClassify (errStatusOf te) (some b) te.message mc
          = e := by simpa [← hmc] using h
      refine finishClassify_code_mem _ _ _ _ ?_
      rw [hmc]
      split_ifs <;> simp [errorCodeVocab]
    | some j =>
      by_cases hman : j.manualEntryRequired = some true
      · simp [handleTransportError, hb, hj, hman] at h
      · simp only [handleTransportError, hb, hj, if_neg hman] at h
        set em := strToLower (j.error.getD "") with hem
        set mc : String × String :=
          if jsStrTruthy j.error then
            if strIncludes em "openai api key" ||
                strIncludes em "api key is not configured" then
              ("AI service is not properly configured. Please contact support.",
               "AI_NOT_CONFIGURED")
            else if strIncludes em "invalid" || strIncludes em "expired" then
              ("AI service authentication failed. Please try again later.",
               "AI_AUTH_FAILED")
            else if strIncludes em "rate limit" || strIncludes em "quota" then
              ("AI service is temporarily busy. Please try again in a moment.",
               "AI_RATE_LIMIT")
            else if strIncludes em "temporarily unavailable" ||
                strIncludes em "service" then
              ("AI service is temporarily unavailable. Please try again later.",
               "AI_SERVICE_UNAVAILABLE")
            else if strIncludes em "failed to analyze" then
              ("Could not identify this product automatically. Please enter the details manually.",
               "AI_ANALYSIS_FAILED")
            else
              ("Unable to analyze product. Please enter details manually.",
               "AI_ERROR")
          else ("Failed to analyze product", "UNKNOWN_ERROR") with hmc
        obtain rfl : finishClassify (errStatusOf te) (some b) te.message mc
            = e := by simpa [← hmc, ← hem] using h
        refine finishClassify_code_mem _ _ _ _ ?_
        rw [hmc]
        split_ifs <;> simp [errorCodeVocab]

/-- C8: every classified error thrown by `analyzeProduct` carries a code
from the closed vocabulary of spec section 6; in particular the
`EDGE_FUNCTION_ERROR` fallback of the throw site is never reached. -/
theorem analyzeProduct_codes_closed (pj : String → Option ErrPayload)
    (pd : String → Option Int) (now : Int) (cfg : Config)
    (o : AnalyzeProductOptions) (invoke : RequestBody → Invoked)
    (e : AIAnalysisError)
    (h : analyzeProduct pj pd now cfg o invoke = .error e) :
    e.code ∈ errorCodeVocab := by
  unfold analyzeProduct at h
  split_ifs at h
  case _ =>
    obtain rfl : (⟨missingInputMsg, "MISSING_INPUT"⟩ : AIAnalysisError) = e :=
      by simpa using h
    decide
  case _ =>
    obtain rfl : (⟨notConfiguredMsg, "NOT_CONFIGURED"⟩ : AIAnalysisError) = e :=
      by simpa using h
    decide
  case _ =>
    obtain rfl : (⟨placeholderMsg, "PLACEHOLDER_CREDENTIALS"⟩ :
        AIAnalysisError) = e := by simpa using h
    decide
  case _ =>
    obtain rfl : (⟨wrongKeyTypeMsg, "WRONG_KEY_TYPE"⟩ : AIAnalysisError) = e :=
      by simpa using h
    decide
  case _ =>
    generalize hI : invoke (sentBody o) = inv at h
    obtain ⟨ierr, idata⟩ := inv
    cases ierr with
    | some te =>
      exact handleTransportError_code_mem pj pd now te e
        (by simpa [interpretInvoked] using h)
    | none =>
      cases idata with
      | none =>
        obtain rfl : (⟨noResponseMsg, "NO_RESPONSE"⟩ : AIAnalysisError) = e :=
          by simpa [interpretInvoked] using h
        decide
      | some d =>
        by_cases hde : jsStrTruthy d.error = true
        · obtain rfl : (⟨jsOrStrD d.error "Error from AI service",
              "AI_SERVICE_ERROR"⟩ : AIAnalysisError) = e := by
            simpa [interpretInvoked, hde] using h
          simp [errorCodeVocab]
        · simp [interpretInvoked, hde] at h

/-- Witness for C8 at a concrete thrown error. -/
theorem analyzeProduct_codes_closed_witness :
    (⟨missingInputMsg, "MISSING_INPUT"⟩ : AIAnalysisError).code ∈
      errorCodeVocab :=
  analyzeProduct_codes_closed pjNone pdNone 0 cCfg cOptsNone cInvoke401
    ⟨missingInputMsg, "MISSING_INPUT"⟩ rfl
